import Mathlib

/-!
Verification of the Facebook Pages dbt setup script (`setup.py`).

The script runs six sequential setup steps (environment check, two
dependency installations, a database-file check, a connection test and a
model compilation), counts the successes, and prints a summary.  External
effects (the interpreter version, subprocess results, the filesystem) are
modelled as an explicit environment; each `print` call is modelled as
appending the printed string to an output list.
-/

namespace SetupPy

/-- Python character test used by `str.strip()` with no argument:
the ASCII whitespace characters stripped by default. -/
def pyIsSpace (c : Char) : Bool :=
  c == ' ' || c == '\t' || c == '\n' || c == '\r' || c == '\x0b' || c == '\x0c'

/-- Characters stripped by the source's `.strip("'\"")`: a single or a
double quote. -/
def isQuoteChar (c : Char) : Bool :=
  c == '\x27' || c == '"'

/-- Python substring test `sep in s` on character lists: some contiguous
run of `s` equals `sep`. -/
def containsSeq (sep : List Char) : List Char → Bool
  | [] => sep.isEmpty
  | c :: rest => sep.isPrefixOf (c :: rest) || containsSeq sep rest

/-- Python's `sub in s` membership test on strings. -/
def pyContains (s sub : String) : Bool :=
  containsSeq sub.toList s.toList

/-- Fuel-driven worker for `pySplit`.  The fuel starts at the length of
the string, and every call consumes at least one character, so the fuel
never runs out for a nonempty separator. -/
def pySplitAux (sep : List Char) : Nat → List Char → List Char → List (List Char)
  | _, [], acc => [acc.reverse]
  | 0, s, acc => [acc.reverse ++ s]
  | fuel + 1, c :: rest, acc =>
    if sep.isPrefixOf (c :: rest) then
      acc.reverse :: pySplitAux sep fuel (List.drop sep.length (c :: rest)) []
    else
      pySplitAux sep fuel rest (c :: acc)

/-- Python's `s.split(sep)` for a nonempty separator: the chunks of `s`
between non-overlapping occurrences of `sep`, scanned left to right. -/
def pySplit (s sep : String) : List String :=
  (pySplitAux sep.toList s.toList.length s.toList []).map String.mk

/-- Python's `s.strip(...)`: drop the characters satisfying `p` from both
ends of the string. -/
def pyStrip (p : Char → Bool) (s : String) : String :=
  String.mk (((s.toList.dropWhile p).reverse.dropWhile p).reverse)

/-- Everything after the first occurrence of `sep`, on character lists
(empty when `sep` does not occur). -/
def afterFirstOcc (sep : List Char) : List Char → List Char
  | [] => []
  | c :: rest =>
    if sep.isPrefixOf (c :: rest) then List.drop sep.length (c :: rest)
    else afterFirstOcc sep rest

/-- Everything in `s` after the first occurrence of `m`. -/
def pyAfterFirst (s m : String) : String :=
  String.mk (afterFirstOcc m.toList s.toList)

/-- Modelled from the spec: the spec's description of the database-check
extraction says the target path is "the substring of that line after the
marker", stripped of surrounding whitespace and surrounding quote
characters.  This definition follows those words literally (the substring
after the first occurrence of the marker), to be compared with the
source's `line.split('path:')[1]`. -/
def spec_target_path (line : String) : String :=
  pyStrip isQuoteChar (pyStrip pyIsSpace (pyAfterFirst line "path:"))

/-- Result of a completed `subprocess.run` call. -/
structure CmdResult where
  returncode : Int
  stdout : String
  stderr : String

/-- Outcome of attempting a shell command in `run_command`: either
`subprocess.run` returns a result, or some exception is raised (modelling
the `except Exception` branch). -/
inductive CmdOutcome where
  | ok (r : CmdResult)
  | exn (msg : String)

/-- Embeds `run_command` (setup.py lines 18-32).  The shell command's
outcome is supplied by the environment; the returned pair is the success
flag and the printed lines. -/
def run_command (command description : String) (outcome : CmdOutcome) : Bool × List String :=
  let pre := "\n🔄 " ++ description ++ "..."
  match outcome with
  | .ok result =>
    if result.returncode == 0 then
      (true, [pre, "✅ " ++ description ++ " completed successfully"])
    else
      (false, [pre, "❌ " ++ description ++ " failed:", result.stderr])
  | .exn e =>
    (false, [pre, "❌ Error during " ++ description ++ ": " ++ e])

/-- Embeds `print_header` (setup.py lines 12-16): the three printed lines. -/
def print_header (title : String) : List String :=
  ["\n" ++ String.mk (List.replicate 60 '='),
   "  " ++ title,
   String.mk (List.replicate 60 '=')]

/-- The filesystem as seen by `check_database_file`: whether
`.dbt/profiles.yml` exists, what reading it yields (`.error` models an
exception raised by `open`/`read`, caught by the source's bare
`except Exception: pass`), and which paths `os.path.exists` reports. -/
structure FS where
  profilesExists : Bool
  profilesRead : Except String String
  pathExists : String → Bool

/-- Embeds the profile-scanning part of `check_database_file` (setup.py
lines 44-50): under the guard `'path:' in content`, the first line
containing both `'path:'` and `'.duckdb'` yields
`line.split('path:')[1].strip().strip("'\"")`.  The index `[1]` in the
source cannot fail because the line is known to contain the separator;
`getD 1 ""` mirrors it. -/
def extract_db_path (content : String) : Option String :=
  if pyContains content "path:" then
    (pySplit content "\n").findSome? (fun line =>
      if pyContains line "path:" && pyContains line ".duckdb" then
        some (pyStrip isQuoteChar (pyStrip pyIsSpace ((pySplit line "path:").getD 1 "")))
      else none)
  else none

/-- The database path whose existence `check_database_file` tests
(setup.py lines 36-52): the hardcoded default, unless the profiles file
exists, reads successfully and yields an extracted path. -/
def resolve_db_file (fs : FS) : String :=
  let db_file := "facebook_pages_pipeline.duckdb"
  if fs.profilesExists then
    match fs.profilesRead with
    | .ok content => (extract_db_path content).getD db_file
    | .error _ => db_file
  else db_file

/-- Embeds `check_database_file` (setup.py lines 34-61): success flag and
printed lines. -/
def check_database_file (fs : FS) : Bool × List String :=
  let db_file := resolve_db_file fs
  if fs.pathExists db_file then
    (true, ["✅ Database file found: " ++ db_file])
  else
    (false, ["⚠️  Database file not found: " ++ db_file,
             "   Make sure to run the DLT extraction pipeline first!",
             "   See: https://github.com/your-org/dlt-facebook-pages"])

/-- Outcome of the `subprocess.run(["dbt", "debug"], ...)` call in
`check_dbt_connection`: a completed run, a `FileNotFoundError` (the dbt
executable is missing), or some other exception. -/
inductive DebugOutcome where
  | ok (r : CmdResult)
  | fileNotFound
  | exn (msg : String)

/-- Embeds `check_dbt_connection` (setup.py lines 63-81): success flag
and printed lines. -/
def check_dbt_connection (outcome : DebugOutcome) : Bool × List String :=
  let pre := "\n🔄 Testing dbt database connection..."
  match outcome with
  | .ok result =>
    if pyContains result.stdout "All checks passed!" then
      (true, [pre, "✅ dbt connection test passed"])
    else
      (false, [pre, "❌ dbt connection test failed:", result.stdout, result.stderr])
  | .fileNotFound =>
    (false, [pre, "❌ dbt command not found. Please install dbt-core and dbt-duckdb"])
  | .exn e =>
    (false, [pre, "❌ Error testing dbt connection: " ++ e])

/-- The running interpreter's version triple (`sys.version_info`'s first
three components). -/
structure PyVersion where
  major : Nat
  minor : Nat
  micro : Nat

/-- Embeds Step 1 of `main` (setup.py lines 93-100).  The source compares
`sys.version_info >= (3, 8)`; Python tuple comparison makes that hold
exactly when the major version exceeds 3, or equals 3 with minor at
least 8 (the micro component never matters). -/
def step1_check (v : PyVersion) : Bool × List String :=
  let vline := "Python version: " ++ toString v.major ++ "." ++ toString v.minor ++ "." ++ toString v.micro
  if 3 < v.major ∨ (v.major = 3 ∧ 8 ≤ v.minor) then
    (true, [vline, "✅ Python version is compatible"])
  else
    (false, [vline, "❌ Python 3.8+ required"])

/-- Environment supplying every external effect `main` consumes: the
interpreter version, the outcome of each of the four shell commands, and
the filesystem. -/
structure Env where
  python_version : PyVersion
  pip_install : CmdOutcome
  dbt_deps : CmdOutcome
  fs : FS
  dbt_debug : DebugOutcome
  dbt_compile : CmdOutcome

/-- Embeds the final-status block of `main` (setup.py lines 128-151):
header, success count, and the count-dependent closing message. -/
def summary_lines (success_count total_steps : Nat) : List String :=
  print_header "Setup Complete"
  ++ ["✅ " ++ toString success_count ++ "/" ++ toString total_steps ++ " steps completed successfully"]
  ++ (if success_count == total_steps then
        ["\n🎉 Setup completed successfully!",
         "\n📋 Next steps:",
         "   1. Run \x27make pipeline\x27 to execute all models",
         "   2. Run \x27make test\x27 to validate data quality",
         "   3. Run \x27make docs\x27 to view documentation",
         "\n💡 Useful commands:",
         "   • make run          - Run all models",
         "   • make test         - Run data quality tests",
         "   • make docs         - Generate documentation",
         "   • make help         - See all available commands"]
      else
        ["\n⚠️  Setup completed with " ++ toString (total_steps - success_count) ++ " warnings/errors",
         "   Please review the output above and resolve any issues"]
        ++ (if success_count < 4 then
              ["\n🚨 Critical issues detected:",
               "   • Make sure you have Python 3.8+ installed",
               "   • Install required dependencies",
               "   • Run the DLT extraction pipeline first",
               "   • Check your database connection settings"]
            else []))

/-- The observable result of one run of `main`: the final success count
and every printed line, in order. -/
structure MainResult where
  success_count : Nat
  output : List String

/-- Embeds `main` (setup.py lines 83-154): the six steps in order, the
sequentially incremented success counter, and the full printed output. -/
def main (env : Env) : MainResult :=
  let success_count : Nat := 0
  let r1 := step1_check env.python_version
  let success_count := if r1.1 then success_count + 1 else success_count
  let r2 := run_command "pip install -r requirements.txt" "Installing Python dependencies" env.pip_install
  let success_count := if r2.1 then success_count + 1 else success_count
  let r3 := run_command "dbt deps" "Installing dbt package dependencies" env.dbt_deps
  let success_count := if r3.1 then success_count + 1 else success_count
  let r4 := check_database_file env.fs
  let success_count := if r4.1 then success_count + 1 else success_count
  let r5 := check_dbt_connection env.dbt_debug
  let success_count := if r5.1 then success_count + 1 else success_count
  let r6 := run_command "dbt compile" "Compiling dbt models" env.dbt_compile
  let success_count := if r6.1 then success_count + 1 else success_count
  { success_count := success_count
    output :=
      print_header "Facebook Pages dbt Setup"
      ++ ["🚀 Setting up Facebook Pages dbt transformation models...",
          "   This will install dependencies and validate your setup."]
      ++ print_header "Step 1: Environment Check"
      ++ r1.2
      ++ print_header "Step 2: Install Dependencies"
      ++ r2.2
      ++ print_header "Step 3: Install dbt Dependencies"
      ++ r3.2
      ++ print_header "Step 4: Database Check"
      ++ r4.2
      ++ print_header "Step 5: Database Connection Test"
      ++ r5.2
      ++ print_header "Step 6: Compile Models"
      ++ r6.2
      ++ summary_lines success_count 6
      ++ ["\n📚 Documentation: README.md",
          "🔗 DLT Pipeline: https://github.com/your-org/dlt-facebook-pages"] }

/-- The per-step success flags of one run, in step order. -/
def step_flags (env : Env) : List Bool :=
  [(step1_check env.python_version).1,
   (run_command "pip install -r requirements.txt" "Installing Python dependencies" env.pip_install).1,
   (run_command "dbt deps" "Installing dbt package dependencies" env.dbt_deps).1,
   (check_database_file env.fs).1,
   (check_dbt_connection env.dbt_debug).1,
   (run_command "dbt compile" "Compiling dbt models" env.dbt_compile).1]

/-- Embeds the script's process-level behaviour
(`if __name__ == "__main__": main()`, setup.py lines 156-157): CPython
exits with status 0 when `main()` returns without an uncaught exception,
which it always does here because every exception inside a step is caught
inside that step (reflected in `main` being a total function). -/
def script_run (env : Env) : MainResult × Nat :=
  (main env, 0)

/-- Profiles file whose matching line holds the path marker twice, used
to compare the source's extraction with the spec's wording. -/
def twoMarkerFS : FS :=
  { profilesExists := true
    profilesRead := .ok "path: a.duckdb path: b"
    pathExists := fun _ => false }

/-- Profiles file with content but no line holding both the path marker
and the database extension. -/
def noMatchFS : FS :=
  { profilesExists := true
    profilesRead := .ok "default:\n  target: dev\n"
    pathExists := fun _ => false }

/-- Filesystem where reading the profiles file raises an exception while
the default database file exists. -/
def readErrorFS : FS :=
  { profilesExists := true
    profilesRead := .error "boom"
    pathExists := fun p => p == "facebook_pages_pipeline.duckdb" }

/-- Filesystem where reading the profiles file raises an exception and
every path exists. -/
def readErrorOkFS : FS :=
  { profilesExists := true
    profilesRead := .error "boom"
    pathExists := fun _ => true }

/-- Profiles file whose first matching line is a YAML comment and whose
second matching line is a real setting. -/
def commentLineFS : FS :=
  { profilesExists := true
    profilesRead := .ok "# path: commented.duckdb\npath: real.duckdb"
    pathExists := fun _ => false }

/-- Profiles file with a single quoted path setting. -/
def quotedPathFS : FS :=
  { profilesExists := true
    profilesRead := .ok "output:\n  path: \x27db/test.duckdb\x27\n"
    pathExists := fun _ => false }

theorem suffix_append_left {α : Type} {l r : List α} (a : List α) (h : l <:+ r) :
    l <:+ a ++ r := by
  obtain ⟨t, rfl⟩ := h
  exact ⟨a ++ t, List.append_assoc a t l⟩

theorem sublist_skip_seg {α : Type} {l r : List α} (a : List α) (h : List.Sublist l r) :
    List.Sublist l (a ++ r) :=
  h.trans (List.sublist_append_right a r)

theorem cons_sublist_of_mem {α : Type} {x : α} {l r a : List α}
    (hx : x ∈ a) (h : List.Sublist l r) : List.Sublist (x :: l) (a ++ r) :=
  (List.singleton_sublist.mpr hx).append h

theorem findSome?_if_eq_map_find? {α β : Type} (p : α → Bool) (g : α → β) (l : List α) :
    (l.findSome? fun a => if p a then some (g a) else none) = (l.find? p).map g := by
  induction l with
  | nil => rfl
  | cons a t ih =>
    by_cases h : p a = true
    · simp [List.findSome?, List.find?, h]
    · simp only [Bool.not_eq_true] at h
      simp [List.findSome?, List.find?, h, ih]

theorem find?_prepend_none {α : Type} (p : α → Bool) (pre rest : List α)
    (h : ∀ x ∈ pre, p x = false) : (pre ++ rest).find? p = rest.find? p := by
  induction pre with
  | nil => rfl
  | cons a t ih =>
    have ha : p a = false := h a (List.mem_cons_self a t)
    simp [List.find?, ha, ih fun x hx => h x (List.mem_cons_of_mem a hx)]

theorem check_database_file_fst (fs : FS) :
    (check_database_file fs).1 = fs.pathExists (resolve_db_file fs) := by
  cases h : fs.pathExists (resolve_db_file fs) <;> simp [check_database_file, h]

theorem count_line_mem_summary (n : Nat) :
    ("✅ " ++ toString n ++ "/" ++ toString 6 ++ " steps completed successfully")
      ∈ summary_lines n 6 := by
  simp [summary_lines, print_header]

/-- C1: for every combination of the six step outcomes, the final
success count equals the number of steps whose check returned success
(each success increments the counter by one, each failure leaves it
unchanged), and exactly that count is printed in the final summary. -/
theorem success_count_matches_outcomes (env : Env) :
    (main env).success_count = (step_flags env).count true
  ∧ ("✅ " ++ toString ((step_flags env).count true) ++ "/" ++ toString 6
      ++ " steps completed successfully") ∈ (main env).output := by
  have hcount : (main env).success_count = (step_flags env).count true := by
    simp only [main, step_flags]
    generalize (step1_check env.python_version).1 = b1
    generalize (run_command "pip install -r requirements.txt"
      "Installing Python dependencies" env.pip_install).1 = b2
    generalize (run_command "dbt deps" "Installing dbt package dependencies" env.dbt_deps).1 = b3
    generalize (check_database_file env.fs).1 = b4
    generalize (check_dbt_connection env.dbt_debug).1 = b5
    generalize (run_command "dbt compile" "Compiling dbt models" env.dbt_compile).1 = b6
    cases b1 <;> cases b2 <;> cases b3 <;> cases b4 <;> cases b5 <;> cases b6 <;> rfl
  refine ⟨hcount, ?_⟩
  rw [← hcount]
  simp only [main, List.append_assoc]
  iterate 14 apply List.mem_append_right
  apply List.mem_append_left
  exact count_line_mem_summary _

/-- C2: whatever the step outcomes, the runner prints the six step
banners in the fixed order 1 through 6: every step is attempted, a
failing step never prevents the later ones. -/
theorem all_six_steps_attempted_in_order (env : Env) :
    List.Sublist
    ["  Step 1: Environment Check",
     "  Step 2: Install Dependencies",
     "  Step 3: Install dbt Dependencies",
     "  Step 4: Database Check",
     "  Step 5: Database Connection Test",
     "  Step 6: Compile Models"] ((main env).output) := by
  simp only [main, List.append_assoc]
  apply sublist_skip_seg
  apply sublist_skip_seg
  refine cons_sublist_of_mem (by simp [print_header]) ?_
  apply sublist_skip_seg
  refine cons_sublist_of_mem (by simp [print_header]) ?_
  apply sublist_skip_seg
  refine cons_sublist_of_mem (by simp [print_header]) ?_
  apply sublist_skip_seg
  refine cons_sublist_of_mem (by simp [print_header]) ?_
  apply sublist_skip_seg
  refine cons_sublist_of_mem (by simp [print_header]) ?_
  apply sublist_skip_seg
  refine cons_sublist_of_mem (by simp [print_header]) ?_
  exact List.nil_sublist _

/-- C3: for every combination of step outcomes the script completes
(its closing documentation lines are the final output) and the process
exit status is zero; no exit code ever signals failure. -/
theorem process_exits_normally (env : Env) :
    (script_run env).2 = 0
  ∧ ["\n📚 Documentation: README.md",
     "🔗 DLT Pipeline: https://github.com/your-org/dlt-facebook-pages"]
      <:+ (main env).output := by
  refine ⟨rfl, ?_⟩
  simp only [main, List.append_assoc]
  iterate 15 apply suffix_append_left
  exact List.suffix_refl _

/-- C4: step 5 succeeds exactly when the captured stdout of `dbt debug`
contains the literal phrase "All checks passed!"; when the phrase is
absent the step fails and both captured streams are printed; a missing
dbt executable is a distinct failure with its own message. -/
theorem dbt_connection_test_criteria (r : CmdResult) :
    ((check_dbt_connection (.ok r)).1 = pyContains r.stdout "All checks passed!")
  ∧ (pyContains r.stdout "All checks passed!" = false →
       (check_dbt_connection (.ok r)).1 = false
       ∧ r.stdout ∈ (check_dbt_connection (.ok r)).2
       ∧ r.stderr ∈ (check_dbt_connection (.ok r)).2)
  ∧ (check_dbt_connection .fileNotFound).1 = false
  ∧ "❌ dbt command not found. Please install dbt-core and dbt-duckdb"
      ∈ (check_dbt_connection .fileNotFound).2
  ∧ (check_dbt_connection .fileNotFound).2 ≠ (check_dbt_connection (.ok r)).2 := by
  refine ⟨?_, ?_, ?_, ?_, ?_⟩
  · cases h : pyContains r.stdout "All checks passed!" <;> simp [check_dbt_connection, h]
  · intro hc
    refine ⟨?_, ?_, ?_⟩ <;> simp [check_dbt_connection, hc]
  · simp [check_dbt_connection]
  · simp [check_dbt_connection]
  · cases h : pyContains r.stdout "All checks passed!" <;> simp [check_dbt_connection, h]

/-- Witness for C4 at a concrete failed run: stdout "nope" misses the
phrase, the step fails, and both streams appear in the printed lines. -/
theorem dbt_connection_test_criteria_witness :
    pyContains "nope" "All checks passed!" = false
  ∧ ((check_dbt_connection (.ok ⟨0, "nope", "err"⟩)).1 = false
     ∧ "nope" ∈ (check_dbt_connection (.ok ⟨0, "nope", "err"⟩)).2
     ∧ "err" ∈ (check_dbt_connection (.ok ⟨0, "nope", "err"⟩)).2) :=
  ⟨by decide, (dbt_connection_test_criteria ⟨0, "nope", "err"⟩).2.1 (by decide)⟩

theorem resolve_db_file_of_find? (fs : FS) (content line : String)
    (hex : fs.profilesExists = true)
    (hread : fs.profilesRead = .ok content)
    (hguard : pyContains content "path:" = true)
    (hfind : (pySplit content "\n").find?
        (fun l => pyContains l "path:" && pyContains l ".duckdb") = some line) :
    resolve_db_file fs
      = pyStrip isQuoteChar (pyStrip pyIsSpace ((pySplit line "path:").getD 1 "")) := by
  simp only [resolve_db_file, hex, hread, if_true]
  simp only [extract_db_path, hguard, if_true]
  rw [findSome?_if_eq_map_find?
    (fun l => pyContains l "path:" && pyContains l ".duckdb")
    (fun l => pyStrip isQuoteChar (pyStrip pyIsSpace ((pySplit l "path:").getD 1 "")))]
  rw [hfind]
  rfl

/-- C5 counterexample: on a matching line holding the path marker twice,
the code checks the substring between the two marker occurrences, not
the spec's "substring of that line after the marker". -/
theorem db_path_after_marker_counterexample :
    resolve_db_file twoMarkerFS = "a.duckdb"
  ∧ spec_target_path "path: a.duckdb path: b" = "a.duckdb path: b"
  ∧ resolve_db_file twoMarkerFS ≠ spec_target_path "path: a.duckdb path: b" := by
  refine ⟨by decide, by decide, by decide⟩

/-- C5 amended: when the configuration file has a line with both the
path marker and the database extension, the path checked for existence
is the matching line's text between the first and second occurrences of
the marker (its entire remainder when the marker occurs once), stripped
of whitespace and then of surrounding quotes, instead of the default. -/
theorem db_path_extraction_amended (fs : FS) (content line : String)
    (hex : fs.profilesExists = true)
    (hread : fs.profilesRead = .ok content)
    (hguard : pyContains content "path:" = true)
    (hfind : (pySplit content "\n").find?
        (fun l => pyContains l "path:" && pyContains l ".duckdb") = some line) :
    resolve_db_file fs
      = pyStrip isQuoteChar (pyStrip pyIsSpace ((pySplit line "path:").getD 1 ""))
  ∧ (check_database_file fs).1
      = fs.pathExists (pyStrip isQuoteChar (pyStrip pyIsSpace ((pySplit line "path:").getD 1 ""))) := by
  have hres := resolve_db_file_of_find? fs content line hex hread hguard hfind
  exact ⟨hres, by rw [check_database_file_fst, hres]⟩

/-- Witness for the amended C5 on a quoted single-marker line: the
extracted, trimmed, quote-stripped path is used. -/
theorem db_path_extraction_amended_witness :
    quotedPathFS.profilesExists = true
  ∧ pyContains "output:\n  path: \x27db/test.duckdb\x27\n" "path:" = true
  ∧ (pySplit "output:\n  path: \x27db/test.duckdb\x27\n" "\n").find?
      (fun l => pyContains l "path:" && pyContains l ".duckdb")
      = some "  path: \x27db/test.duckdb\x27"
  ∧ resolve_db_file quotedPathFS = "db/test.duckdb" := by
  have h := db_path_extraction_amended quotedPathFS "output:\n  path: \x27db/test.duckdb\x27\n"
    "  path: \x27db/test.duckdb\x27" rfl rfl (by decide) (by decide)
  exact ⟨rfl, by decide, by decide, h.1.trans (by decide)⟩

/-- C6: when the configuration file is absent, unreadable, or has no
line with both the path marker and the database extension, the check
falls back to the hardcoded default filename, and the step's outcome is
exactly the existence test of the resolved path (no exception surfaces
anywhere: every branch returns a value). -/
theorem db_check_default_fallback (fs : FS) (content e : String) :
    (fs.profilesExists = false → resolve_db_file fs = "facebook_pages_pipeline.duckdb")
  ∧ (fs.profilesExists = true → fs.profilesRead = .error e →
       resolve_db_file fs = "facebook_pages_pipeline.duckdb")
  ∧ (fs.profilesExists = true → fs.profilesRead = .ok content →
       (∀ line ∈ pySplit content "\n",
          ¬(pyContains line "path:" = true ∧ pyContains line ".duckdb" = true)) →
       resolve_db_file fs = "facebook_pages_pipeline.duckdb")
  ∧ (check_database_file fs).1 = fs.pathExists (resolve_db_file fs) := by
  refine ⟨?_, ?_, ?_, check_database_file_fst fs⟩
  · intro h; simp [resolve_db_file, h]
  · intro h1 h2; simp [resolve_db_file, h1, h2]
  · intro h1 h2 hno
    have hfind : (pySplit content "\n").find?
        (fun l => pyContains l "path:" && pyContains l ".duckdb") = none := by
      rw [List.find?_eq_none]
      intro x hx
      have hx2 := hno x hx
      cases hpa : pyContains x "path:" <;> cases hpd : pyContains x ".duckdb" <;> simp_all
    have hex : extract_db_path content = none := by
      by_cases hg : pyContains content "path:" = true
      · simp only [extract_db_path, hg, if_true]
        rw [findSome?_if_eq_map_find?
          (fun l => pyContains l "path:" && pyContains l ".duckdb")
          (fun l => pyStrip isQuoteChar (pyStrip pyIsSpace ((pySplit l "path:").getD 1 "")))]
        rw [hfind]
        rfl
      · simp only [Bool.not_eq_true] at hg
        simp [extract_db_path, hg]
    simp [resolve_db_file, h1, h2, hex]

/-- Witness for C6 on a profiles file with no matching line: the
default filename is resolved. -/
theorem db_check_default_fallback_witness :
    noMatchFS.profilesExists = true
  ∧ resolve_db_file noMatchFS = "facebook_pages_pipeline.duckdb"
  ∧ (check_database_file noMatchFS).1 = noMatchFS.pathExists (resolve_db_file noMatchFS) := by
  have h := db_check_default_fallback noMatchFS "default:\n  target: dev\n" ""
  exact ⟨rfl, h.2.2.1 rfl rfl (by decide), h.2.2.2⟩

/-- C7: step 1 succeeds exactly when the interpreter version is at
least 3.8 in the major/minor Python tuple order; every 3.7.x version
fails with the requirement message and every 3.11.x version succeeds. -/
theorem environment_check_version_gate (v : PyVersion) (m : Nat) :
    ((step1_check v).1 = true ↔ (3 < v.major ∨ (v.major = 3 ∧ 8 ≤ v.minor)))
  ∧ (step1_check ⟨3, 7, m⟩).1 = false
  ∧ "❌ Python 3.8+ required" ∈ (step1_check ⟨3, 7, m⟩).2
  ∧ (step1_check ⟨3, 11, m⟩).1 = true
  ∧ "✅ Python version is compatible" ∈ (step1_check ⟨3, 11, m⟩).2 := by
  refine ⟨?_, ?_, ?_, ?_, ?_⟩
  · simp only [step1_check]
    split_ifs with h <;> simp [h]
  · simp [step1_check]
  · simp [step1_check]
  · simp [step1_check]
  · simp [step1_check]

/-- Witness for C7 at the boundary version 3.8.0 and the scenario
versions 3.7.5 and 3.11.5. -/
theorem environment_check_version_gate_witness :
    ((step1_check ⟨3, 8, 0⟩).1 = true ↔ (3 < 3 ∨ (3 = 3 ∧ 8 ≤ 8)))
  ∧ (step1_check ⟨3, 7, 5⟩).1 = false
  ∧ "❌ Python 3.8+ required" ∈ (step1_check ⟨3, 7, 5⟩).2
  ∧ (step1_check ⟨3, 11, 5⟩).1 = true
  ∧ "✅ Python version is compatible" ∈ (step1_check ⟨3, 11, 5⟩).2 :=
  environment_check_version_gate ⟨3, 8, 0⟩ 5

/-- C8 counterexample: an exception while reading the profiles file in
step 4 is swallowed silently, its message is never printed and the step
still succeeds when the default database file exists, contradicting the
claim that every caught exception is printed and fails its step. -/
theorem exception_handling_counterexample :
    readErrorFS.profilesRead = .error "boom"
  ∧ (check_database_file readErrorFS).1 = true
  ∧ ∀ line ∈ (check_database_file readErrorFS).2, pyContains line "boom" = false := by
  exact ⟨rfl, by decide, by decide⟩

/-- C8 amended: no exception propagates out of any check; for the
command-running steps and the connection test the message is printed
and the step fails, while for the database check a read exception is
silently ignored and the check falls back to the default path. -/
theorem exception_handling_amended (command description e : String) (fs : FS) :
    run_command command description (.exn e)
      = (false, ["\n🔄 " ++ description ++ "...",
                 "❌ Error during " ++ description ++ ": " ++ e])
  ∧ check_dbt_connection (.exn e)
      = (false, ["\n🔄 Testing dbt database connection...",
                 "❌ Error testing dbt connection: " ++ e])
  ∧ (fs.profilesExists = true → fs.profilesRead = .error e →
       resolve_db_file fs = "facebook_pages_pipeline.duckdb"
       ∧ (check_database_file fs).1 = fs.pathExists "facebook_pages_pipeline.duckdb") := by
  refine ⟨rfl, rfl, fun h1 h2 => ?_⟩
  have hres : resolve_db_file fs = "facebook_pages_pipeline.duckdb" := by
    simp [resolve_db_file, h1, h2]
  exact ⟨hres, by rw [check_database_file_fst, hres]⟩

/-- Witness for the amended C8: a concrete exception in a command step
is printed and fails the step, while a profiles read exception leaves
the database check on the default path. -/
theorem exception_handling_amended_witness :
    readErrorOkFS.profilesExists = true
  ∧ run_command "pip install -r requirements.txt" "Installing Python dependencies" (.exn "boom")
      = (false, ["\n🔄 Installing Python dependencies...",
                 "❌ Error during Installing Python dependencies: boom"])
  ∧ (resolve_db_file readErrorOkFS = "facebook_pages_pipeline.duckdb"
     ∧ (check_database_file readErrorOkFS).1
         = readErrorOkFS.pathExists "facebook_pages_pipeline.duckdb") := by
  have h := exception_handling_amended "pip install -r requirements.txt"
    "Installing Python dependencies" "boom" readErrorOkFS
  exact ⟨rfl, h.1, h.2.2 rfl rfl⟩

/-- C9: the final summary is selected by the success count: 6 prints
the celebratory branch with next-step suggestions (and no warning), any
count below 6 prints the warning (and no celebration), and the
root-cause list appears exactly when the count is below 4. -/
theorem summary_message_selection (n : Nat) (h : n ≤ 6) :
    (n = 6 →
       "\n🎉 Setup completed successfully!" ∈ summary_lines n 6
       ∧ "   1. Run \x27make pipeline\x27 to execute all models" ∈ summary_lines n 6
       ∧ "   Please review the output above and resolve any issues" ∉ summary_lines n 6)
  ∧ (n < 6 →
       ("\n⚠️  Setup completed with " ++ toString (6 - n) ++ " warnings/errors")
         ∈ summary_lines n 6
       ∧ "\n🎉 Setup completed successfully!" ∉ summary_lines n 6)
  ∧ ("\n🚨 Critical issues detected:" ∈ summary_lines n 6 ↔ n < 4) := by
  interval_cases n <;> decide

/-- Witness for C9 at a count of 3: the warning branch and the
root-cause hints both appear. -/
theorem summary_message_selection_witness :
    (3 : Nat) ≤ 6
  ∧ ("\n⚠️  Setup completed with " ++ toString (6 - 3) ++ " warnings/errors") ∈ summary_lines 3 6
  ∧ "\n🚨 Critical issues detected:" ∈ summary_lines 3 6 := by
  have h := summary_message_selection 3 (by decide)
  exact ⟨by decide, (h.2.1 (by decide)).1, h.2.2.mpr (by decide)⟩

/-- C10: with several lines holding both the path marker and the
database extension, the first such line in file order determines the
checked path; the scan is purely textual, so a matching comment line
counts (the witness demonstrates this on a commented line). -/
theorem first_matching_line_wins (fs : FS) (content l1 l2 : String)
    (pre mid post : List String)
    (hex : fs.profilesExists = true)
    (hread : fs.profilesRead = .ok content)
    (hguard : pyContains content "path:" = true)
    (hsplit : pySplit content "\n" = pre ++ (l1 :: (mid ++ (l2 :: post))))
    (hpre : ∀ x ∈ pre, (pyContains x "path:" && pyContains x ".duckdb") = false)
    (h1 : (pyContains l1 "path:" && pyContains l1 ".duckdb") = true)
    (h2 : (pyContains l2 "path:" && pyContains l2 ".duckdb") = true) :
    resolve_db_file fs
      = pyStrip isQuoteChar (pyStrip pyIsSpace ((pySplit l1 "path:").getD 1 "")) := by
  have hfind : (pySplit content "\n").find?
      (fun l => pyContains l "path:" && pyContains l ".duckdb") = some l1 := by
    rw [hsplit, find?_prepend_none _ pre _ hpre]
    simp [List.find?, h1]
  exact resolve_db_file_of_find? fs content l1 hex hread hguard hfind

/-- Witness for C10: the commented first matching line wins over the
real setting on the following line. -/
theorem first_matching_line_wins_witness :
    pySplit "# path: commented.duckdb\npath: real.duckdb" "\n"
      = [] ++ ("# path: commented.duckdb" :: ([] ++ ("path: real.duckdb" :: [])))
  ∧ resolve_db_file commentLineFS = "commented.duckdb" := by
  have h := first_matching_line_wins commentLineFS
    "# path: commented.duckdb\npath: real.duckdb"
    "# path: commented.duckdb" "path: real.duckdb" [] [] []
    rfl rfl (by decide) (by decide) (by decide) (by decide) (by decide)
  exact ⟨by decide, h.trans (by decide)⟩

end SetupPy
